import Mathlib

/-!
Verification of the natural-language specification of `image_viewer.py`
(Willmo103/db-image-viewer) against a shallow embedding of its code.

The embedding models Python runtime values by the inductive `PyVal`
(floats are never produced by the paths under study and are omitted),
JSON documents by `JVal`, the on-disk state of `CacheManager` by
`CacheState`, and the relevant state of the `ImageViewer` window by
`ViewerInputs` / `NavState` / `Viewer`.  File-system reads are modelled
as association lists `List (String × Except Unit JVal)`: a missing key
is a missing file, `Except.error ()` is an unreadable or syntactically
invalid file, `Except.ok j` a file that parses to the JSON document `j`.
-/

/-- A single-quote character as a string (used by `pyRepr`). -/
def sqt : String := (Char.ofNat 39).toString

/-- A left-brace character as a string (used by `pyRepr`). -/
def lbr : String := (Char.ofNat 123).toString

/-- A right-brace character as a string (used by `pyRepr`). -/
def rbr : String := (Char.ofNat 125).toString

/-- Python runtime values reachable in the code paths under study.
Floats are omitted: none of the modelled functions produce them. -/
inductive PyVal where
  | none
  | bool (b : Bool)
  | int (n : Int)
  | str (s : String)
  | bytes (bs : List Nat)
  | bytearray (bs : List Nat)
  | list (xs : List PyVal)
  | tuple (xs : List PyVal)
  | dict (kvs : List (String × PyVal))

mutual

/-- Python `==` on `PyVal` (scoped to this model: `bool`/`int` and
`bytes`/`bytearray` cross-compare as in Python; dict comparison is
pointwise in order, which agrees with Python on the dicts this program
builds, whose key order is fixed at construction). -/
def pyEqB : PyVal → PyVal → Bool
  | PyVal.none, PyVal.none => true
  | PyVal.bool a, PyVal.bool b => a == b
  | PyVal.bool a, PyVal.int b => (if a then (1 : Int) else 0) == b
  | PyVal.int a, PyVal.bool b => a == (if b then (1 : Int) else 0)
  | PyVal.int a, PyVal.int b => a == b
  | PyVal.str a, PyVal.str b => a == b
  | PyVal.bytes a, PyVal.bytes b => a == b
  | PyVal.bytes a, PyVal.bytearray b => a == b
  | PyVal.bytearray a, PyVal.bytes b => a == b
  | PyVal.bytearray a, PyVal.bytearray b => a == b
  | PyVal.list xs, PyVal.list ys => pyEqBList xs ys
  | PyVal.tuple xs, PyVal.tuple ys => pyEqBList xs ys
  | PyVal.dict xs, PyVal.dict ys => pyEqBKVs xs ys
  | _, _ => false

/-- Elementwise Python `==` on lists of values. -/
def pyEqBList : List PyVal → List PyVal → Bool
  | [], [] => true
  | x :: xs, y :: ys => pyEqB x y && pyEqBList xs ys
  | _, _ => false

/-- Pairwise Python `==` on dict entries. -/
def pyEqBKVs : List (String × PyVal) → List (String × PyVal) → Bool
  | [], [] => true
  | (k1, v1) :: xs, (k2, v2) :: ys => k1 == k2 && pyEqB v1 v2 && pyEqBKVs xs ys
  | _, _ => false

end

/-- Python truthiness of a value. -/
def isTruthy : PyVal → Bool
  | PyVal.none => false
  | PyVal.bool b => b
  | PyVal.int n => n != 0
  | PyVal.str s => s != ""
  | PyVal.bytes bs => !bs.isEmpty
  | PyVal.bytearray bs => !bs.isEmpty
  | PyVal.list xs => !xs.isEmpty
  | PyVal.tuple xs => !xs.isEmpty
  | PyVal.dict kvs => !kvs.isEmpty

/-- Association-list lookup on string keys (first match wins), the
model of reading a Python dict entry or a file from a directory. -/
def lookupStr {α : Type} (k : String) : List (String × α) → Option α
  | [] => Option.none
  | (k0, v0) :: rest => if k0 = k then Option.some v0 else lookupStr k rest

/-- Association-list update: replace the first binding of `k` in place,
or append a new binding (the model of Python dict assignment, which
preserves insertion order, and of overwriting a file). -/
def assocSet {α : Type} (k : String) (v : α) : List (String × α) → List (String × α)
  | [] => [(k, v)]
  | (k0, v0) :: rest => if k0 = k then (k, v) :: rest else (k0, v0) :: assocSet k v rest

/-- Python `d.get(k)` with default `None`.  (Calling `.get` on a
non-dict raises in Python; the modelled call sites only ever pass
dicts, so non-dicts are mapped to `None` here.) -/
def pyGet (v : PyVal) (k : String) : PyVal :=
  match v with
  | PyVal.dict kvs => (lookupStr k kvs).getD PyVal.none
  | _ => PyVal.none

/-- Python `d[k]` subscripting: `Option.none` models a `KeyError`
(or a `TypeError` on a non-dict). -/
def pyGetItem (v : PyVal) (k : String) : Option PyVal :=
  match v with
  | PyVal.dict kvs => lookupStr k kvs
  | _ => Option.none

/-- Extract a list of Lean strings from a list of Python values that
are all `str`s; `Option.none` if any element is not a string. -/
def asStrings : List PyVal → Option (List String)
  | [] => Option.some []
  | PyVal.str s :: rest => (asStrings rest).map (fun l => s :: l)
  | _ => Option.none

/-- Extract a `List String` from a Python list of strings. -/
def asStringList : PyVal → Option (List String)
  | PyVal.list xs => asStrings xs
  | _ => Option.none

/-- Lowercase hex digit of `n % 16`, for byte escapes in `pyRepr`. -/
def hexDigit (n : Nat) : String :=
  (Char.ofNat (if n % 16 < 10 then 48 + n % 16 else 87 + n % 16)).toString

/-- Two-digit lowercase hex rendering of a byte. -/
def hex2 (b : Nat) : String := hexDigit (b / 16) ++ hexDigit b

/-- Rendering of one byte inside a Python `bytes` repr. -/
def reprByte (b : Nat) : String :=
  if b = 92 then "\\\\"
  else if b = 39 then "\\" ++ sqt
  else if b = 9 then "\\t"
  else if b = 10 then "\\n"
  else if b = 13 then "\\r"
  else if 32 ≤ b ∧ b < 127 then (Char.ofNat b).toString
  else "\\x" ++ hex2 b

/-- Rendering of a byte string body. -/
def reprBytes : List Nat → String
  | [] => ""
  | b :: rest => reprByte b ++ reprBytes rest

mutual

/-- Python `str()` / `repr()` of a value, as used by the code in
`f"{connection_info}{query}"` (`CacheManager.get_cache_key`) and by
`json.dump(..., default=str)` (`CacheManager.cache_results`).  String
escaping inside `repr` of a `str` is simplified to plain quoting; no
claim depends on the rendered text, only on it being a function of the
value. -/
def pyRepr : PyVal → String
  | PyVal.none => "None"
  | PyVal.bool true => "True"
  | PyVal.bool false => "False"
  | PyVal.int n => toString n
  | PyVal.str s => sqt ++ s ++ sqt
  | PyVal.bytes bs => "b" ++ sqt ++ reprBytes bs ++ sqt
  | PyVal.bytearray bs => "bytearray(b" ++ sqt ++ reprBytes bs ++ sqt ++ ")"
  | PyVal.list xs => "[" ++ pyReprList xs ++ "]"
  | PyVal.tuple [x] => "(" ++ pyRepr x ++ ",)"
  | PyVal.tuple xs => "(" ++ pyReprList xs ++ ")"
  | PyVal.dict kvs => lbr ++ pyReprKVs kvs ++ rbr

/-- Comma-separated reprs of list elements. -/
def pyReprList : List PyVal → String
  | [] => ""
  | [x] => pyRepr x
  | x :: xs => pyRepr x ++ ", " ++ pyReprList xs

/-- Comma-separated reprs of dict entries. -/
def pyReprKVs : List (String × PyVal) → String
  | [] => ""
  | [(k, v)] => sqt ++ k ++ sqt ++ ": " ++ pyRepr v
  | (k, v) :: kvs => sqt ++ k ++ sqt ++ ": " ++ pyRepr v ++ ", " ++ pyReprKVs kvs

end

/-- JSON documents, the content of files written with `json.dump` and
read with `json.load`. -/
inductive JVal where
  | null
  | bool (b : Bool)
  | num (n : Int)
  | str (s : String)
  | arr (xs : List JVal)
  | obj (kvs : List (String × JVal))

mutual

/-- `json.dump(..., default=str)` serialisation of a Python value:
`None`/`bool`/`int`/`str` map to their JSON counterparts, `list` and
`tuple` both to JSON arrays, `dict` to a JSON object, and any other
value (here `bytes`/`bytearray`) to the JSON string `str(value)` via
the `default=str` fallback. -/
def jsonDumpStr : PyVal → JVal
  | PyVal.none => JVal.null
  | PyVal.bool b => JVal.bool b
  | PyVal.int n => JVal.num n
  | PyVal.str s => JVal.str s
  | PyVal.bytes bs => JVal.str (pyRepr (PyVal.bytes bs))
  | PyVal.bytearray bs => JVal.str (pyRepr (PyVal.bytearray bs))
  | PyVal.list xs => JVal.arr (jsonDumpList xs)
  | PyVal.tuple xs => JVal.arr (jsonDumpList xs)
  | PyVal.dict kvs => JVal.obj (jsonDumpKVs kvs)

/-- Elementwise serialisation of a list. -/
def jsonDumpList : List PyVal → List JVal
  | [] => []
  | x :: xs => jsonDumpStr x :: jsonDumpList xs

/-- Entrywise serialisation of a dict. -/
def jsonDumpKVs : List (String × PyVal) → List (String × JVal)
  | [] => []
  | (k, v) :: kvs => (k, jsonDumpStr v) :: jsonDumpKVs kvs

end

mutual

/-- `json.load` deserialisation into Python values: arrays always come
back as `list`s and objects as `dict`s. -/
def pyOfJson : JVal → PyVal
  | JVal.null => PyVal.none
  | JVal.bool b => PyVal.bool b
  | JVal.num n => PyVal.int n
  | JVal.str s => PyVal.str s
  | JVal.arr xs => PyVal.list (pyOfJsonList xs)
  | JVal.obj kvs => PyVal.dict (pyOfJsonKVs kvs)

/-- Elementwise deserialisation of an array. -/
def pyOfJsonList : List JVal → List PyVal
  | [] => []
  | x :: xs => pyOfJson x :: pyOfJsonList xs

/-- Entrywise deserialisation of an object. -/
def pyOfJsonKVs : List (String × JVal) → List (String × PyVal)
  | [] => []
  | (k, v) :: kvs => (k, pyOfJson v) :: pyOfJsonKVs kvs

end

/-- The value a Python object comes back as after being written with
`json.dump(..., default=str)` and read again with `json.load`. -/
def jsonRoundTrip (v : PyVal) : PyVal := pyOfJson (jsonDumpStr v)

/-- Errors raised by `base64.b64decode` on a `str` argument: a
non-ASCII argument (`ValueError` from `.encode("ascii")`), a number of
data characters that is 1 more than a multiple of 4, or any other
incomplete final quad (`binascii.Error: Incorrect padding`). -/
inductive B64Err where
  | nonAscii
  | invalidLength
  | incorrectPadding
deriving DecidableEq

/-- Value of one base64 alphabet character, `Option.none` outside the
standard alphabet. -/
def b64digit (c : Char) : Option Nat :=
  if 65 ≤ c.toNat ∧ c.toNat ≤ 90 then Option.some (c.toNat - 65)
  else if 97 ≤ c.toNat ∧ c.toNat ≤ 122 then Option.some (c.toNat - 97 + 26)
  else if 48 ≤ c.toNat ∧ c.toNat ≤ 57 then Option.some (c.toNat - 48 + 52)
  else if c = '+' then Option.some 62
  else if c = '/' then Option.some 63
  else Option.none

/-- CPython `binascii.a2b_base64` in its default non-strict mode (the
mode `base64.b64decode` uses here): characters outside the alphabet are
skipped; a `=` with at least two data characters in the current quad
that completes the quad ends decoding; a final quad with one data
character is `invalidLength`, with two or three `incorrectPadding`.
Arguments: remaining input, position in the current quad (0–3), pending
bits, count of `=` seen in the current quad, output so far (reversed). -/
def a2b : List Char → Nat → Nat → Nat → List Nat → Except B64Err (List Nat)
  | [], quadPos, _, _, acc =>
    if quadPos = 0 then Except.ok acc.reverse
    else if quadPos = 1 then Except.error B64Err.invalidLength
    else Except.error B64Err.incorrectPadding
  | c :: rest, quadPos, leftchar, pads, acc =>
    if c = '=' then
      if 2 ≤ quadPos ∧ 4 ≤ quadPos + (pads + 1) then Except.ok acc.reverse
      else a2b rest quadPos leftchar (if 2 ≤ quadPos then pads + 1 else pads) acc
    else
      match b64digit c with
      | Option.none => a2b rest quadPos leftchar pads acc
      | Option.some d =>
        match quadPos with
        | 0 => a2b rest 1 d 0 acc
        | 1 => a2b rest 2 (d % 16) 0 ((leftchar * 4 + d / 16) :: acc)
        | 2 => a2b rest 3 (d % 4) 0 ((leftchar * 16 + d / 4) :: acc)
        | _ => a2b rest 0 0 0 ((leftchar * 64 + d) :: acc)

/-- `base64.b64decode` applied to a `str`: the argument is first
encoded as ASCII (raising on any non-ASCII character), then decoded by
`a2b`. -/
def b64decode (s : String) : Except B64Err (List Nat) :=
  if s.data.any (fun c => 128 ≤ c.toNat) then Except.error B64Err.nonAscii
  else a2b s.data 0 0 0 []

/-- `ImageViewer.process_image_data`: a `str` is base64-decoded (the
`Except.error` results model the uncaught `binascii.Error` /
`ValueError` that `base64.b64decode` can raise), `bytes` and
`bytearray` are copied to `bytes`, and any other type yields `None`. -/
def process_image_data (image_data : PyVal) : Except B64Err (Option (List Nat)) :=
  match image_data with
  | PyVal.str s => (b64decode s).map Option.some
  | PyVal.bytes bs => Except.ok (Option.some bs)
  | PyVal.bytearray bs => Except.ok (Option.some bs)
  | _ => Except.ok (Option.none)

/-- True exactly for values that are neither `str` nor `bytes` nor
`bytearray` (the fall-through branch of `process_image_data`). -/
def isOtherType : PyVal → Bool
  | PyVal.str _ => false
  | PyVal.bytes _ => false
  | PyVal.bytearray _ => false
  | _ => true

/-- What the single-view image label ends up showing for one record. -/
inductive ImgOutcome where
  | noImage
  | pixmap (bs : List Nat)
  | unsupported
  | decodeError (e : B64Err)
  | parseError
deriving DecidableEq

/-- The image branch of `ImageViewer.display_current_record`:
falsy cell → "No image in this record."; then inside `try`:
`process_image_data`, a falsy (empty or `None`) byte string →
"Unsupported image data type.", an undecodable image → the raised
`ValueError` caught as "Error loading image: ..." (`parseError`), and a
`binascii.Error` from the decode caught the same way (`decodeError`).
`isValidImage` abstracts `QImage.fromData` succeeding, which is outside
the embedding. -/
def display_image (isValidImage : List Nat → Bool) (image_data : PyVal) : ImgOutcome :=
  if isTruthy image_data then
    match process_image_data image_data with
    | Except.error e => ImgOutcome.decodeError e
    | Except.ok Option.none => ImgOutcome.unsupported
    | Except.ok (Option.some []) => ImgOutcome.unsupported
    | Except.ok (Option.some bs) =>
      if isValidImage bs then ImgOutcome.pixmap bs else ImgOutcome.parseError
  else ImgOutcome.noImage

/-- One entry of `CacheManager.cache_index`: the cached file path and
the number of cached result rows. -/
structure IndexEntry where
  file : String
  size : Nat

/-- On-disk state of `CacheManager`: the cache index (a dict keyed by
cache key) and the files of the cache directory. -/
structure CacheState where
  index : List (String × IndexEntry)
  files : List (String × Except Unit JVal)

/-- Path of the cache file for a key: `self.cache_dir / f"{key}.json"`
with the default cache directory. -/
def cacheFilePath (cache_key : String) : String :=
  "db_viewer_cache/" ++ cache_key ++ ".json"

/-- `CacheManager.get_cache_key`: md5 hexdigest of
`f"{connection_info}{query}"`.  The md5 hexdigest itself is outside the
embedding and is passed in as `md5hex`; every claim involving the key
holds for an arbitrary `md5hex`, only the digested text is modelled. -/
def get_cache_key (md5hex : String → String) (connection_info : PyVal) (query : String) : String :=
  md5hex (pyRepr connection_info ++ query)

/-- `CacheManager.cache_results`: write
`{"results": ..., "column_names": ..., "timestamp": None}` to the cache
file with `json.dump(..., default=str)` (`QTimer().singleShot(0, ...)`
returns `None`, so the timestamp is `None`), record the file and row
count in the index, and save the index. -/
def cache_results (c : CacheState) (cache_key : String)
    (results : List PyVal) (column_names : List String) : CacheState :=
  let cache_file := cacheFilePath cache_key
  let cache_data : PyVal :=
    PyVal.dict [("results", PyVal.list results),
                ("column_names", PyVal.list (column_names.map PyVal.str)),
                ("timestamp", PyVal.none)]
  { index := assocSet cache_key { file := cache_file, size := results.length } c.index,
    files := assocSet cache_file (Except.ok (jsonDumpStr cache_data)) c.files }

/-- `CacheManager.get_cached_results`: look the key up in the index,
check the recorded file exists, and `json.load` it; any failure
(missing key, missing file, unreadable or invalid file) yields `None`. -/
def get_cached_results (c : CacheState) (cache_key : String) : Option PyVal :=
  match lookupStr cache_key c.index with
  | Option.some entry =>
    match lookupStr entry.file c.files with
    | Option.some (Except.ok j) => Option.some (pyOfJson j)
    | Option.some (Except.error _) => Option.none
    | Option.none => Option.none
  | Option.none => Option.none

/-- The default configuration dict returned by
`ConfigManager.load_config` when the config file is missing or cannot
be parsed. -/
def defaultConfig : PyVal :=
  PyVal.dict [("connections", PyVal.list []),
              ("queries", PyVal.list []),
              ("last_connection", PyVal.dict []),
              ("last_query", PyVal.str ""),
              ("last_image_column", PyVal.str "image_data"),
              ("window_geometry", PyVal.none),
              ("grid_columns", PyVal.int 3)]

/-- `ConfigManager.load_config`: if the config file exists and parses
as JSON, return its contents; on a missing, unreadable or invalid file
return the default configuration. -/
def load_config (files : List (String × Except Unit JVal)) (config_file : String) : PyVal :=
  match lookupStr config_file files with
  | Option.some (Except.ok j) => pyOfJson j
  | _ => defaultConfig

/-- `CacheManager.load_cache_index`: like `load_config` but the
fallback is the empty dict. -/
def load_cache_index (files : List (String × Except Unit JVal)) (index_file : String) : PyVal :=
  match lookupStr index_file files with
  | Option.some (Except.ok j) => pyOfJson j
  | _ => PyVal.dict []

/-- `ConfigManager.add_connection`: drop every saved connection whose
`name` equals the new connection's `name` (Python `!=` on the results
of `.get("name")`), then append the new connection and save. -/
def add_connection (connections : List PyVal) (connection_info : PyVal) : List PyVal :=
  connections.filter (fun conn => !pyEqB (pyGet conn "name") (pyGet connection_info "name"))
    ++ [connection_info]

/-- The effective name of a saved query: the given name, or, when the
name is falsy, the query text truncated to 50 characters with an
ellipsis when longer than 50. -/
def queryName (query name : String) : String :=
  if name = "" then (if 50 < query.length then query.take 50 ++ "..." else query) else name

/-- The `{"name": ..., "query": ...}` entry `ConfigManager.add_query`
appends. -/
def queryInfoOf (query name : String) : PyVal :=
  PyVal.dict [("name", PyVal.str (queryName query name)), ("query", PyVal.str query)]

/-- `ConfigManager.add_query`: drop every saved query whose `query`
field equals the new query text, then append the new entry and save. -/
def add_query (queries : List PyVal) (query : String) (name : String) : List PyVal :=
  queries.filter (fun q => !pyEqB (pyGet q "query") (PyVal.str query)) ++ [queryInfoOf query name]

/-- Python `config[k] = v` on the configuration dict.  (Assignment on a
non-dict would raise; the program only ever assigns into dicts, and a
non-dict is returned unchanged here.) -/
def dictSet (v : PyVal) (k : String) (val : PyVal) : PyVal :=
  match v with
  | PyVal.dict kvs => PyVal.dict (assocSet k val kvs)
  | other => other

/-- The observable behaviour of the cursor used by `QueryWorker.run`:
whether `cursor.execute(query)` raises, whether `cursor.fetchall()`
raises, and whether reading the column names off
`cursor.description` raises (it does, as a `TypeError`, when the
description is `None` for a non-SELECT statement).  Errors carry
`str(e)`. -/
structure CursorModel where
  executeRes : String → Except String Unit
  fetchallRes : Except String (List PyVal)
  descriptionRes : Except String (List (String × PyVal))

/-- One emission of the `finished` signal of `QueryWorker`:
`(results, column_names, error)`. -/
structure Emission where
  results : List PyVal
  column_names : List String
  error : String

/-- `QueryWorker.run`: execute the query, fetch all rows, read the
column names as `[desc[0] for desc in cursor.description]`, and emit
`finished(results, column_names, "")`; if any of these steps raises,
emit `finished([], [], str(e))` instead.  The returned list is the
sequence of `finished` emissions of the run. -/
def QueryWorker_run (cur : CursorModel) (query : String) : List Emission :=
  match cur.executeRes query with
  | Except.error e => [{ results := [], column_names := [], error := e }]
  | Except.ok _ =>
    match cur.fetchallRes with
    | Except.error e => [{ results := [], column_names := [], error := e }]
    | Except.ok results =>
      match cur.descriptionRes with
      | Except.error e => [{ results := [], column_names := [], error := e }]
      | Except.ok descs =>
        [{ results := results, column_names := descs.map Prod.fst, error := "" }]

/-- The database type selected in the combo box. -/
inductive DbType where
  | sqlite
  | postgresql
deriving DecidableEq

/-- The form inputs of the `ImageViewer` window read by `run_query`,
`get_connection_info` and `save_current_settings`. -/
structure ViewerInputs where
  dbType : DbType
  queryText : String
  imageColumnInput : String
  useCache : Bool
  sqlitePath : String
  pgHost : String
  pgPort : String
  pgDbname : String
  pgUser : String
  pgPass : String
  gridColumns : Int

/-- `ImageViewer.get_connection_info`: the dict used for cache keys and
for the persisted `last_connection`.  For PostgreSQL it contains host,
port, dbname and user — and deliberately not the password. -/
def get_connection_info (inp : ViewerInputs) : PyVal :=
  if inp.dbType = DbType.sqlite then
    PyVal.dict [("type", PyVal.str "sqlite"), ("path", PyVal.str inp.sqlitePath)]
  else
    PyVal.dict [("type", PyVal.str "postgresql"),
                ("host", PyVal.str inp.pgHost),
                ("port", PyVal.str inp.pgPort),
                ("dbname", PyVal.str inp.pgDbname),
                ("user", PyVal.str inp.pgUser)]

/-- `ImageViewer.save_current_settings`: store the window geometry (its
hex text is passed in as `geomHex`, the rendering being outside the
embedding), the password-free connection info, the query text, the
image column text and the grid column count into the configuration. -/
def save_current_settings (config : PyVal) (inp : ViewerInputs) (geomHex : String) : PyVal :=
  let c1 := dictSet config "window_geometry" (PyVal.str geomHex)
  let c2 := dictSet c1 "last_connection" (get_connection_info inp)
  let c3 := dictSet c2 "last_query" (PyVal.str inp.queryText)
  let c4 := dictSet c3 "last_image_column" (PyVal.str inp.imageColumnInput)
  dictSet c4 "grid_columns" (PyVal.int inp.gridColumns)

/-- The record-navigation state of `ImageViewer`: the member variables
`results`, `column_names`, `current_index` and `image_column_name`
touched by `process_results`, `on_query_finished`, `next_image` and
`prev_image` (widget updates touch none of them). -/
structure NavState where
  results : List PyVal
  column_names : List String
  current_index : Int
  image_column_name : String

/-- `ImageViewer.process_results`: if the image column is not among the
column names, warn and return with the state unchanged; otherwise set
`current_index` to `-1` on an empty result list and to `0` on a
non-empty one (display calls touch no modelled field). -/
def process_results (s : NavState) : NavState :=
  if s.image_column_name ∉ s.column_names then s
  else if s.results.isEmpty then { s with current_index := -1 }
  else { s with current_index := 0 }

/-- `ImageViewer.on_query_finished` restricted to the navigation state:
on a non-empty error string, report it and leave the state unchanged;
otherwise store the results and column names and run `process_results`
(the cache write it also performs touches no `NavState` field). -/
def on_query_finished (s : NavState) (results : List PyVal)
    (column_names : List String) (error : String) : NavState :=
  if error ≠ "" then s
  else process_results { s with results := results, column_names := column_names }

/-- `ImageViewer.next_image`: advance `current_index` when it is below
`len(results) - 1`. -/
def next_image (s : NavState) : NavState :=
  if s.current_index < (s.results.length : Int) - 1 then
    { s with current_index := s.current_index + 1 }
  else s

/-- `ImageViewer.prev_image`: decrement `current_index` when it is
above `0`. -/
def prev_image (s : NavState) : NavState :=
  if 0 < s.current_index then { s with current_index := s.current_index - 1 } else s

/-- The invariant claimed for `current_index`: `-1` on an empty result
list, a valid index otherwise. -/
def navInv (s : NavState) : Prop :=
  (s.results.length = 0 → s.current_index = -1) ∧
  (0 < s.results.length → 0 ≤ s.current_index ∧ s.current_index < (s.results.length : Int))

/-- The indices of the records `ImageViewer.update_grid_view` lays out
on the current page: `range(start_idx, end_idx)` with
`start_idx = page * items_per_page` and
`end_idx = min(start_idx + items_per_page, len(results))`. -/
def grid_page_indices (resultsLen items_per_page page : Nat) : List Nat :=
  List.range' (page * items_per_page)
    (min (page * items_per_page + items_per_page) resultsLen - page * items_per_page)

/-- The page count `(len(self.results) - 1) // items_per_page + 1`
computed in `update_grid_view` and `next_page` (Python `//` is floor
division, hence `Int.fdiv`). -/
def total_pages (resultsLen items_per_page : Nat) : Int :=
  ((resultsLen : Int) - 1).fdiv (items_per_page : Int) + 1

/-- `ImageViewer.next_page`: advance `current_page` when it is below
`total_pages - 1`. -/
def next_page (resultsLen items_per_page : Nat) (current_page : Int) : Int :=
  if current_page < total_pages resultsLen items_per_page - 1 then current_page + 1
  else current_page

/-- `ImageViewer.prev_page`: decrement `current_page` when it is above
`0`. -/
def prev_page (current_page : Int) : Int :=
  if 0 < current_page then current_page - 1 else current_page

/-- Python `str.strip()` with no argument: remove leading and
trailing whitespace (defined over the character list so that it
evaluates by kernel reduction). -/
def pyStrip (s : String) : String :=
  ⟨((s.data.dropWhile Char.isWhitespace).reverse.dropWhile Char.isWhitespace).reverse⟩

/-- How a call to `run_query` ends. -/
inductive RQOutcome where
  | missingImageColumn
  | cacheHit
  | connectFailed
  | started
  | crash
deriving DecidableEq

/-- Observable trace of one `run_query` call: how it ended, whether a
database connection was opened, and whether a `QueryWorker` thread was
started. -/
structure RQTrace where
  outcome : RQOutcome
  openedConnection : Bool
  startedWorker : Bool

/-- The state of the `ImageViewer` window used by `run_query`. -/
structure Viewer where
  inputs : ViewerInputs
  cache : CacheState
  nav : NavState
  dbOpen : Bool

/-- The connect-and-start tail of `ImageViewer.run_query`: an empty
SQLite path raises `ValueError` (caught, reported, no worker); a failed
`sqlite3.connect` / `psycopg2.connect` (abstracted by `connectOk`) is
likewise caught; otherwise the connection is stored and a `QueryWorker`
is started on it. -/
def run_query_connect (connectOk : Bool) (v : Viewer) : Viewer × RQTrace :=
  if v.inputs.dbType = DbType.sqlite ∧ v.inputs.sqlitePath = "" then
    (v, { outcome := RQOutcome.connectFailed, openedConnection := false, startedWorker := false })
  else if connectOk = false then
    (v, { outcome := RQOutcome.connectFailed, openedConnection := false, startedWorker := false })
  else
    ({ v with dbOpen := true },
     { outcome := RQOutcome.started, openedConnection := true, startedWorker := true })

/-- `ImageViewer.run_query`: close any open connection; read and strip
the image column name (warning and returning when it is empty); compute
the cache key from `get_connection_info` and the query text; when the
use-cache checkbox is set and `get_cached_results` returns a truthy
entry, take `results` and `column_names` from the entry, run
`process_results`, and return without connecting; otherwise connect and
start a worker.  `crash` models the uncaught `KeyError` (or downstream
type confusion) on a cached entry lacking the expected keys — entries
written by `cache_results` always have them. -/
def run_query (md5hex : String → String) (connectOk : Bool) (v0 : Viewer) : Viewer × RQTrace :=
  let icn := pyStrip v0.inputs.imageColumnInput
  let nav1 : NavState :=
    { results := v0.nav.results, column_names := v0.nav.column_names,
      current_index := v0.nav.current_index, image_column_name := icn }
  let v : Viewer := { inputs := v0.inputs, cache := v0.cache, nav := nav1, dbOpen := false }
  if icn = "" then
    (v, { outcome := RQOutcome.missingImageColumn, openedConnection := false,
          startedWorker := false })
  else
    let key := get_cache_key md5hex (get_connection_info v0.inputs) v0.inputs.queryText
    match (if v0.inputs.useCache then get_cached_results v0.cache key else Option.none) with
    | Option.some cr =>
      if isTruthy cr then
        match pyGetItem cr "results", (pyGetItem cr "column_names").bind asStringList with
        | Option.some (PyVal.list rs), Option.some cs =>
          ({ inputs := v0.inputs, cache := v0.cache,
             nav := process_results
               { results := rs, column_names := cs,
                 current_index := v0.nav.current_index, image_column_name := icn },
             dbOpen := false },
           { outcome := RQOutcome.cacheHit, openedConnection := false, startedWorker := false })
        | _, _ =>
          (v, { outcome := RQOutcome.crash, openedConnection := false, startedWorker := false })
      else run_query_connect connectOk v
    | Option.none => run_query_connect connectOk v

/-! Helper lemmas shared by the claim theorems. -/

/-- Looking up a key just set finds the set value. -/
theorem lookupStr_assocSet_self {α : Type} (k : String) (v : α) (l : List (String × α)) :
    lookupStr k (assocSet k v l) = Option.some v := by
  induction l with
  | nil => simp [assocSet, lookupStr]
  | cons hd tl ih =>
    obtain ⟨k0, v0⟩ := hd
    by_cases h : k0 = k
    · simp [assocSet, h, lookupStr]
    · simp [assocSet, h, lookupStr, ih]

/-- Deserialising the serialisation of a list of values round-trips
elementwise. -/
theorem pyOfJsonList_jsonDumpList (xs : List PyVal) :
    pyOfJsonList (jsonDumpList xs) = xs.map jsonRoundTrip := by
  induction xs with
  | nil => rfl
  | cons x xs ih => simp [jsonDumpList, pyOfJsonList, ih, jsonRoundTrip]

/-- A list of strings is stable under the JSON round-trip. -/
theorem map_jsonRoundTrip_str (cs : List String) :
    (cs.map PyVal.str).map jsonRoundTrip = cs.map PyVal.str := by
  induction cs with
  | nil => rfl
  | cons c cs ih => simp [jsonRoundTrip, jsonDumpStr, pyOfJson, ih]

/-- A successful subscript implies the dict is truthy. -/
theorem isTruthy_of_pyGetItem {cr : PyVal} {k : String} {x : PyVal}
    (h : pyGetItem cr k = Option.some x) : isTruthy cr = true := by
  cases cr <;> simp [pyGetItem] at h
  next kvs => cases kvs <;> simp_all [isTruthy, lookupStr]

/-- `process_results` never changes the result list. -/
theorem process_results_results (s : NavState) : (process_results s).results = s.results := by
  unfold process_results; split <;> [rfl; split <;> rfl]

/-- `process_results` never changes the column names. -/
theorem process_results_column_names (s : NavState) :
    (process_results s).column_names = s.column_names := by
  unfold process_results; split <;> [rfl; split <;> rfl]

/-! Claim theorems. -/

/-- C2 (confirmed): `process_image_data` is a type sniff — a `str` is
mapped to the outcome of base64-decoding it (successful decodes return
the decoded bytes; the error results model the exception the decoder
raises, see C3), `bytes` and `bytearray` arguments return their byte
contents, and every other type returns `None`. -/
theorem process_image_data_type_sniffing (v : PyVal) :
    (∀ s, v = PyVal.str s → process_image_data v = (b64decode s).map Option.some) ∧
    (∀ bs, v = PyVal.bytes bs ∨ v = PyVal.bytearray bs →
      process_image_data v = Except.ok (Option.some bs)) ∧
    (isOtherType v = true → process_image_data v = Except.ok Option.none) := by
  refine ⟨?_, ?_, ?_⟩
  · rintro s rfl; rfl
  · rintro bs (rfl | rfl) <;> rfl
  · intro h; cases v <;> simp_all [isOtherType, process_image_data]

/-- Witness for C2: a concrete base64 string decodes to its bytes. -/
theorem process_image_data_type_sniffing_w :
    process_image_data (PyVal.str "aGk=") = Except.ok (Option.some [104, 105]) := by
  have h := (process_image_data_type_sniffing (PyVal.str "aGk=")).1 "aGk=" rfl
  rw [h]; rfl

/-- Counterexample for C3 as stated: on the string `"a"`, which is not
valid base64, `process_image_data` does not return bytes or `None` — it
raises (`binascii.Error`, modelled as `Except.error`). -/
theorem process_image_data_raises_cex :
    process_image_data (PyVal.str "a") = Except.error B64Err.invalidLength := rfl

/-- C3 (corrected): `process_image_data` returns without raising for
every non-string value, but a string that is not valid base64 makes it
raise; the raise is caught by the `try`/`except` of
`display_current_record`, which shows an error label instead of
propagating, so the decode step as a whole still falls back
gracefully. -/
theorem process_image_data_graceful_amended (isValidImage : List Nat → Bool) (v : PyVal) :
    ((∀ s, v ≠ PyVal.str s) → ∃ r, process_image_data v = Except.ok r) ∧
    (∀ e, process_image_data v = Except.error e →
      display_image isValidImage v = ImgOutcome.decodeError e) := by
  constructor
  · intro h
    cases v <;> first | exact ⟨_, rfl⟩ | exact absurd rfl (h _)
  · intro e he
    cases v <;> simp [process_image_data] at he
    next s =>
      have hs : s ≠ "" := by
        intro h0
        rw [h0] at he
        simp [b64decode, a2b, Except.map] at he
      have hb : b64decode s = Except.error e := by
        cases hbd : b64decode s <;> rw [hbd] at he <;> simp [Except.map] at he
        rw [he]
      simp [display_image, isTruthy, hs, process_image_data, hb, Except.map]

/-- Witness for C3: the failed decode of `"a"` is displayed as a caught
error label. -/
theorem process_image_data_graceful_amended_w :
    display_image (fun _ => true) (PyVal.str "a") = ImgOutcome.decodeError B64Err.invalidLength :=
  (process_image_data_graceful_amended (fun _ => true) (PyVal.str "a")).2
    B64Err.invalidLength rfl

/-- Counterexample for C1 as stated: cache a result list containing
the row `(1,)`; `get_cached_results` yields a `'results'` entry holding
the JSON round-trip `[1]` (a `list`), which differs from the cached
`rs` (a `tuple`), because `json.dump` writes tuples as arrays and
`json.load` reads arrays back as lists. -/
theorem cache_roundtrip_cex :
    get_cached_results (cache_results { index := [], files := [] } "k"
        [PyVal.tuple [PyVal.int 1]] ["a"]) "k" =
      Option.some (PyVal.dict
        [("results", PyVal.list [PyVal.list [PyVal.int 1]]),
         ("column_names", PyVal.list [PyVal.str "a"]),
         ("timestamp", PyVal.none)]) ∧
    PyVal.list [PyVal.list [PyVal.int 1]] ≠ PyVal.list [PyVal.tuple [PyVal.int 1]] := by
  constructor
  · rfl
  · simp

/-- C1 (corrected): after `cache_results(k, rs, cs)`,
`get_cached_results(k)` returns a dict whose `'column_names'` entry
equals `cs` and whose `'results'` entry equals the JSON round-trip of
`rs` — equal to `rs` itself exactly when every row survives
`json.dump`/`json.load` unchanged (tuples come back as lists, `bytes`
as their `str(...)` rendering). -/
theorem cache_roundtrip_amended (c : CacheState) (k : String)
    (rs : List PyVal) (cs : List String) :
    get_cached_results (cache_results c k rs cs) k =
      Option.some (PyVal.dict
        [("results", PyVal.list (rs.map jsonRoundTrip)),
         ("column_names", PyVal.list (cs.map PyVal.str)),
         ("timestamp", PyVal.none)]) := by
  unfold cache_results get_cached_results
  simp only [lookupStr_assocSet_self]
  simp [jsonDumpStr, jsonDumpKVs, jsonDumpList, pyOfJson, pyOfJsonKVs, pyOfJsonList,
        pyOfJsonList_jsonDumpList, map_jsonRoundTrip_str]
  exact fun a _ => rfl

/-- C4 (confirmed): `QueryWorker.run` emits `finished` exactly once;
when executing the query, fetching the rows or reading the column
names raises, the single emission is `([], [], str(e))`; otherwise it
is `(results, column_names, "")`. -/
theorem query_worker_emits_once (cur : CursorModel) (query : String) :
    (QueryWorker_run cur query).length = 1 ∧
    (∀ e, cur.executeRes query = Except.error e →
      QueryWorker_run cur query = [{ results := [], column_names := [], error := e }]) ∧
    (∀ e, cur.executeRes query = Except.ok () → cur.fetchallRes = Except.error e →
      QueryWorker_run cur query = [{ results := [], column_names := [], error := e }]) ∧
    (∀ rows e, cur.executeRes query = Except.ok () → cur.fetchallRes = Except.ok rows →
      cur.descriptionRes = Except.error e →
      QueryWorker_run cur query = [{ results := [], column_names := [], error := e }]) ∧
    (∀ rows descs, cur.executeRes query = Except.ok () → cur.fetchallRes = Except.ok rows →
      cur.descriptionRes = Except.ok descs →
      QueryWorker_run cur query =
        [{ results := rows, column_names := descs.map Prod.fst, error := "" }]) := by
  refine ⟨?_, ?_, ?_, ?_, ?_⟩
  · unfold QueryWorker_run
    rcases cur.executeRes query with e | u
    · rfl
    · rcases cur.fetchallRes with e | rows
      · rfl
      · rcases cur.descriptionRes with e | descs <;> rfl
  · intro e he; unfold QueryWorker_run; rw [he]
  · intro e h1 h2; unfold QueryWorker_run; rw [h1, h2]
  · intro rows e h1 h2 h3; unfold QueryWorker_run; rw [h1, h2, h3]
  · intro rows descs h1 h2 h3; unfold QueryWorker_run; rw [h1, h2, h3]

/-- Witness for C4: a cursor whose three steps all succeed emits the
rows, the first components of the description, and an empty error. -/
theorem query_worker_emits_once_w :
    QueryWorker_run
      { executeRes := fun _ => Except.ok (),
        fetchallRes := Except.ok [PyVal.tuple [PyVal.int 1]],
        descriptionRes := Except.ok [("id", PyVal.none)] } "SELECT id FROM t" =
      [{ results := [PyVal.tuple [PyVal.int 1]], column_names := ["id"], error := "" }] := by
  have h := (query_worker_emits_once
    { executeRes := fun _ => Except.ok (),
      fetchallRes := Except.ok [PyVal.tuple [PyVal.int 1]],
      descriptionRes := Except.ok [("id", PyVal.none)] } "SELECT id FROM t").2.2.2.2
    [PyVal.tuple [PyVal.int 1]] [("id", PyVal.none)] rfl rfl rfl
  rw [h]; rfl

/-- C10 (confirmed): loading persisted state never raises —
`load_config` returns the parsed file contents when the config file
exists and parses, and the fixed default configuration when the file is
missing, unreadable or invalid; `load_cache_index` likewise returns the
parsed index or the empty dict. -/
theorem persisted_load_total (files : List (String × Except Unit JVal))
    (config_file index_file : String) (j : JVal) :
    (lookupStr config_file files = Option.none →
      load_config files config_file = defaultConfig) ∧
    (lookupStr config_file files = Option.some (Except.error ()) →
      load_config files config_file = defaultConfig) ∧
    (lookupStr config_file files = Option.some (Except.ok j) →
      load_config files config_file = pyOfJson j) ∧
    (lookupStr index_file files = Option.none →
      load_cache_index files index_file = PyVal.dict []) ∧
    (lookupStr index_file files = Option.some (Except.error ()) →
      load_cache_index files index_file = PyVal.dict []) ∧
    (lookupStr index_file files = Option.some (Except.ok j) →
      load_cache_index files index_file = pyOfJson j) := by
  refine ⟨?_, ?_, ?_, ?_, ?_, ?_⟩ <;> intro h <;>
    simp [load_config, load_cache_index, h]

/-- Witness for C10: an empty file system yields the default
configuration and the empty cache index. -/
theorem persisted_load_total_w :
    load_config [] "db_viewer_config.json" = defaultConfig ∧
    load_cache_index [] "db_viewer_cache/cache_index.json" = PyVal.dict [] := by
  constructor
  · exact (persisted_load_total [] "db_viewer_config.json"
      "db_viewer_cache/cache_index.json" JVal.null).1 rfl
  · exact (persisted_load_total [] "db_viewer_config.json"
      "db_viewer_cache/cache_index.json" JVal.null).2.2.2.1 rfl

/-- C9 (confirmed): the PostgreSQL password never influences the cache
key or the persisted `last_connection`: `get_connection_info` omits the
password field, so changing only the password text leaves the
connection-info dict, the cache key and the whole saved configuration
unchanged. -/
theorem password_noninterference (md5hex : String → String) (inp : ViewerInputs)
    (p query : String) (config : PyVal) (geomHex : String) :
    get_connection_info { inp with pgPass := p } = get_connection_info inp ∧
    get_cache_key md5hex (get_connection_info { inp with pgPass := p }) query =
      get_cache_key md5hex (get_connection_info inp) query ∧
    save_current_settings config { inp with pgPass := p } geomHex =
      save_current_settings config inp geomHex :=
  ⟨rfl, rfl, rfl⟩

/-- C7 (confirmed, read as invariant preservation): if the saved
connections have pairwise distinct names and the saved queries pairwise
distinct query texts, then after `add_connection` the names are still
pairwise distinct with the new connection last, and after `add_query`
the query texts are still pairwise distinct with the new entry last.
(Distinctness is under the modelled Python `==`.) -/
theorem saved_entries_unique (connections : List PyVal) (connection_info : PyVal)
    (queries : List PyVal) (query name : String)
    (hc : List.Pairwise (fun a b => pyEqB (pyGet a "name") (pyGet b "name") = false) connections)
    (hq : List.Pairwise (fun a b => pyEqB (pyGet a "query") (pyGet b "query") = false) queries) :
    List.Pairwise (fun a b => pyEqB (pyGet a "name") (pyGet b "name") = false)
      (add_connection connections connection_info) ∧
    (add_connection connections connection_info).getLast? = Option.some connection_info ∧
    List.Pairwise (fun a b => pyEqB (pyGet a "query") (pyGet b "query") = false)
      (add_query queries query name) ∧
    (add_query queries query name).getLast? = Option.some (queryInfoOf query name) := by
  have hqi : pyGet (queryInfoOf query name) "query" = PyVal.str query := by
    simp [queryInfoOf, pyGet, lookupStr]
  refine ⟨?_, ?_, ?_, ?_⟩
  · unfold add_connection
    rw [List.pairwise_append]
    refine ⟨hc.sublist (List.filter_sublist _), by simp, ?_⟩
    intro a ha b hb
    rw [List.mem_singleton] at hb
    subst hb
    have h2 := (List.mem_filter.1 ha).2
    simpa using h2
  · unfold add_connection
    exact List.getLast?_concat _
  · unfold add_query
    rw [List.pairwise_append]
    refine ⟨hq.sublist (List.filter_sublist _), by simp, ?_⟩
    intro a ha b hb
    rw [List.mem_singleton] at hb
    subst hb
    have h2 := (List.mem_filter.1 ha).2
    rw [hqi]
    simpa using h2
  · unfold add_query
    exact List.getLast?_concat _

/-- Witness for C7: adding a connection named `b` to a list holding
one connection named `a` appends it last. -/
theorem saved_entries_unique_w :
    (add_connection [PyVal.dict [("name", PyVal.str "a")]]
        (PyVal.dict [("name", PyVal.str "b")])).getLast? =
      Option.some (PyVal.dict [("name", PyVal.str "b")]) :=
  (saved_entries_unique [PyVal.dict [("name", PyVal.str "a")]]
    (PyVal.dict [("name", PyVal.str "b")]) [] "q" "" (by simp) (by simp)).2.1

/-- Counterexample for C8 as stated: from the invariant-satisfying
state after a 5-row query (index 4), `on_query_finished` with a 2-row
result whose columns lack the image column stores the new results but
returns early from `process_results`, leaving `current_index = 4` out
of range of the 2-element result list. -/
theorem current_index_invariant_cex :
    navInv { results := List.replicate 5 (PyVal.int 0), column_names := ["img"],
             current_index := 4, image_column_name := "img" } ∧
    ¬ navInv (on_query_finished
        { results := List.replicate 5 (PyVal.int 0), column_names := ["img"],
          current_index := 4, image_column_name := "img" }
        [PyVal.int 1, PyVal.int 2] ["a"] "") := by
  constructor
  · simp [navInv]
  · intro h
    have h2 := h.2 (by simp [on_query_finished, process_results])
    simp [on_query_finished, process_results] at h2

/-- C8 (corrected): `process_results` establishes the current-index
invariant whenever the image column is among the column names, and
leaves the state untouched (possibly invariant-breaking, see the
counterexample) when it is not; `on_query_finished` leaves the state
untouched on a query error and establishes the invariant when the
error is empty and the new columns contain the image column;
`next_image` and `prev_image` preserve the invariant. -/
theorem current_index_invariant_amended (s : NavState) (results : List PyVal)
    (column_names : List String) (error : String) :
    (s.image_column_name ∈ s.column_names → navInv (process_results s)) ∧
    (s.image_column_name ∉ s.column_names → process_results s = s) ∧
    (navInv s → navInv (next_image s)) ∧
    (navInv s → navInv (prev_image s)) ∧
    (error ≠ "" → on_query_finished s results column_names error = s) ∧
    (error = "" → s.image_column_name ∈ column_names →
      navInv (on_query_finished s results column_names error)) := by
  have hinv0 : ∀ t : NavState, t.image_column_name ∈ t.column_names →
      navInv (process_results t) := by
    intro t ht
    unfold process_results
    rw [if_neg (by simp [ht])]
    by_cases hre : t.results.isEmpty
    · rw [if_pos hre]
      rw [List.isEmpty_iff_length_eq_zero] at hre
      simp [navInv, hre]
    · rw [if_neg hre]
      have hlen : 0 < t.results.length := by
        rcases Nat.eq_zero_or_pos t.results.length with h0 | h0
        · exact absurd (List.isEmpty_iff_length_eq_zero.2 h0) hre
        · exact h0
      simp only [navInv]
      refine ⟨?_, ?_⟩ <;> dsimp only <;> intro h0
      · omega
      · constructor <;> omega
  refine ⟨hinv0 s, ?_, ?_, ?_, ?_, ?_⟩
  · intro h
    unfold process_results
    rw [if_pos h]
  · intro hs
    unfold navInv at hs ⊢
    unfold next_image
    split_ifs with hlt
    · dsimp only
      omega
    · exact hs
  · intro hs
    unfold navInv at hs ⊢
    unfold prev_image
    split_ifs with hlt
    · dsimp only
      omega
    · exact hs
  · intro he
    unfold on_query_finished
    rw [if_pos he]
  · intro he hm
    unfold on_query_finished
    rw [if_neg (by simp [he])]
    exact hinv0 _ hm

/-- Witness for C8: `next_image` from a one-row state at index 0
preserves the invariant. -/
theorem current_index_invariant_amended_w :
    navInv (next_image { results := [PyVal.int 0], column_names := ["a"],
                         current_index := 0, image_column_name := "a" }) :=
  (current_index_invariant_amended
    { results := [PyVal.int 0], column_names := ["a"],
      current_index := 0, image_column_name := "a" } [] [] "x").2.2.1
    (by simp [navInv])

/-- Counterexample for C6 as stated: with one result and nine items
per page there is a single page, and `next_page` on page 0 leaves the
page unchanged — it does not change the current page by exactly one. -/
theorem grid_pagination_cex :
    total_pages 1 9 = 1 ∧ next_page 1 9 0 = 0 := by
  constructor <;> decide

/-- C6 (corrected): for a non-empty result list and `n ≥ 1`, page `p`
lays out exactly the records with indices in
`[p*n, min((p+1)*n, len))`; the reported page count is `ceil(len/n)`;
`next_page` increments the page exactly when it is below
`total_pages - 1` and otherwise leaves it unchanged, `prev_page`
decrements exactly when the page is positive; consequently navigation
keeps the page inside `[0, total_pages - 1]` whenever it starts there
(a new result list does not reset `current_page`, so the bound is not
re-established across result changes). -/
theorem grid_pagination_amended (resultsLen n p : Nat) (page : Int)
    (hlen : 1 ≤ resultsLen) (hn : 1 ≤ n) :
    (∀ i, i ∈ grid_page_indices resultsLen n p ↔
      p * n ≤ i ∧ i < min ((p + 1) * n) resultsLen) ∧
    total_pages resultsLen n = ((resultsLen + n - 1) / n : Nat) ∧
    (page < total_pages resultsLen n - 1 → next_page resultsLen n page = page + 1) ∧
    (total_pages resultsLen n - 1 ≤ page → next_page resultsLen n page = page) ∧
    (0 < page → prev_page page = page - 1) ∧
    (page ≤ 0 → prev_page page = page) ∧
    (0 ≤ page → page ≤ total_pages resultsLen n - 1 →
      0 ≤ next_page resultsLen n page ∧
      next_page resultsLen n page ≤ total_pages resultsLen n - 1 ∧
      0 ≤ prev_page page ∧ prev_page page ≤ total_pages resultsLen n - 1) := by
  have hmem : ∀ i, i ∈ grid_page_indices resultsLen n p ↔
      p * n ≤ i ∧ i < min ((p + 1) * n) resultsLen := by
    intro i
    unfold grid_page_indices
    rw [List.mem_range'_1]
    have hpn : (p + 1) * n = p * n + n := by ring
    rw [hpn]
    omega
  have htp : total_pages resultsLen n = ((resultsLen + n - 1) / n : Nat) := by
    unfold total_pages
    rw [Int.fdiv_eq_ediv _ (by exact_mod_cast Nat.zero_le n)]
    have h1 : (resultsLen : Int) - 1 = ((resultsLen - 1 : Nat) : Int) := by omega
    rw [h1, ← Int.natCast_div]
    have h2 : (resultsLen + n - 1) / n = (resultsLen - 1) / n + 1 := by
      have h3 : resultsLen + n - 1 = (resultsLen - 1) + n := by omega
      rw [h3, Nat.add_div_right _ (by omega)]
    rw [h2]
    push_cast
    ring
  refine ⟨hmem, htp, ?_, ?_, ?_, ?_, ?_⟩
  · intro h; unfold next_page; rw [if_pos h]
  · intro h; unfold next_page; rw [if_neg (by omega)]
  · intro h; unfold prev_page; rw [if_pos h]
  · intro h; unfold prev_page; rw [if_neg (by omega)]
  · intro h0 h1
    unfold next_page prev_page
    split_ifs <;> refine ⟨by omega, by omega, by omega, by omega⟩

/-- Witness for C6: ten results at nine per page give two pages, and
`next_page` from page 0 advances to page 1. -/
theorem grid_pagination_amended_w :
    total_pages 10 9 = 2 ∧ next_page 10 9 0 = 1 := by
  have h := grid_pagination_amended 10 9 0 0 (by omega) (by omega)
  exact ⟨by rw [h.2.1]; rfl, h.2.2.1 (by decide)⟩

/-- C5 (confirmed): when the image column name strips to non-empty,
the use-cache checkbox is set, and `get_cached_results` returns an
entry (with the `results`/`column_names` keys every entry written by
`cache_results` carries) for the key computed by `get_cache_key` from
the current connection info and query text, `run_query` takes the
displayed results and column names from that entry and neither opens a
database connection nor starts a worker thread. -/
theorem run_query_cache_hit (md5hex : String → String) (connectOk : Bool) (v : Viewer)
    (cr : PyVal) (rs : List PyVal) (colv : PyVal) (cs : List String)
    (hicn : pyStrip v.inputs.imageColumnInput ≠ "")
    (hcache : v.inputs.useCache = true)
    (hget : get_cached_results v.cache
        (get_cache_key md5hex (get_connection_info v.inputs) v.inputs.queryText) =
      Option.some cr)
    (hres : pyGetItem cr "results" = Option.some (PyVal.list rs))
    (hcols : pyGetItem cr "column_names" = Option.some colv)
    (hcs : asStringList colv = Option.some cs) :
    (run_query md5hex connectOk v).2 =
      { outcome := RQOutcome.cacheHit, openedConnection := false, startedWorker := false } ∧
    (run_query md5hex connectOk v).1.nav.results = rs ∧
    (run_query md5hex connectOk v).1.nav.column_names = cs ∧
    (run_query md5hex connectOk v).1.dbOpen = false := by
  have htr : isTruthy cr = true := isTruthy_of_pyGetItem hres
  simp only [run_query, hicn, hcache, if_true, ite_false, if_false, hget, htr, hres, hcols,
    Option.bind, hcs, process_results_results, process_results_column_names]
  simp [process_results_results, process_results_column_names]

/-- Witness for C5: a viewer whose cache was filled by `cache_results`
under the same key hits the cache. -/
theorem run_query_cache_hit_w :
    (run_query (fun _ => "K") true
      { inputs := { dbType := DbType.sqlite, queryText := "q", imageColumnInput := "img",
                    useCache := true, sqlitePath := "p", pgHost := "", pgPort := "",
                    pgDbname := "", pgUser := "", pgPass := "", gridColumns := 3 },
        cache := cache_results { index := [], files := [] } "K" [PyVal.int 1] ["img"],
        nav := { results := [], column_names := [], current_index := -1,
                 image_column_name := "" },
        dbOpen := false }).2 =
      { outcome := RQOutcome.cacheHit, openedConnection := false, startedWorker := false } :=
  (run_query_cache_hit (fun _ => "K") true _
    (PyVal.dict [("results", PyVal.list [PyVal.int 1]),
                 ("column_names", PyVal.list [PyVal.str "img"]),
                 ("timestamp", PyVal.none)])
    [PyVal.int 1] (PyVal.list [PyVal.str "img"]) ["img"]
    (by decide) rfl (by rfl) rfl rfl rfl).1
